import Mathlib

/-!
Verification of the Kite readiness controller (src/atom/kite/lib/ready.js).

The controller is embedded shallowly as trace-producing functions: each
operation of the Ready object (ensure, install, launch, authenticate,
whitelist) becomes a Lean function from an Oracle record, which fixes the
outcomes of the external StateController calls and the current editor file
path, to the list of observable events the operation performs in order
(telemetry records, notification presentations, oracle calls, timer delays).
Notifications are data: their buttons carry the list of primitive steps the
onDidClick closure would perform (telemetry, dismissal, operation
invocation), so claims about retry behaviour are claims about that data.
-/

namespace KiteReady

/-- Model of JavaScript JSON values, used for error payloads and for the
attribute objects passed to metrics.track. Numbers are restricted to
integers, which covers every payload this module constructs. -/
inductive Json where
  | null : Json
  | bool : Bool → Json
  | num : Int → Json
  | str : String → Json
  | arr : List Json → Json
  | obj : List (String × Json) → Json

/-- Escape of one character inside a JSON string literal, as JSON.stringify
performs it for the characters this module can produce. -/
def escapeChar (c : Char) : String :=
  if c = '"' then "\\\""
  else if c = '\\' then "\\\\"
  else if c = '\n' then "\\n"
  else if c = '\t' then "\\t"
  else if c = '\r' then "\\r"
  else String.singleton c

/-- Escape of a whole JSON string body. -/
def escapeString (s : String) : String :=
  String.join (s.toList.map escapeChar)

mutual

/-- Model of JSON.stringify on the Json values above. -/
def Json.stringify : Json → String
  | .null => "null"
  | .bool true => "true"
  | .bool false => "false"
  | .num n => toString n
  | .str s => "\"" ++ escapeString s ++ "\""
  | .arr xs => "[" ++ stringifyArr xs ++ "]"
  | .obj fs => "\x7b" ++ stringifyObj fs ++ "\x7d"

/-- Comma-separated serialization of a JSON array body. -/
def stringifyArr : List Json → String
  | [] => ""
  | [x] => Json.stringify x
  | x :: y :: t => Json.stringify x ++ "," ++ stringifyArr (y :: t)

/-- Comma-separated serialization of a JSON object body. -/
def stringifyObj : List (String × Json) → String
  | [] => ""
  | [(k, v)] => "\"" ++ escapeString k ++ "\":" ++ Json.stringify v
  | (k, v) :: p :: t =>
      "\"" ++ escapeString k ++ "\":" ++ Json.stringify v ++ "," ++ stringifyObj (p :: t)

end

/-- The seven lifecycle states reported by StateController.STATES, in their
documented order. -/
inductive KState where
  | UNSUPPORTED
  | UNINSTALLED
  | INSTALLED
  | RUNNING
  | REACHABLE
  | AUTHENTICATED
  | WHITELISTED
deriving DecidableEq

/-- The remediation operations of the Ready object that a button click can
invoke, with their parameters. install, launch and authenticate take no
parameters at the call site (authenticate reads its hardcoded credentials
internally); whitelist carries the directory path it was given. -/
inductive OpCall where
  | install : OpCall
  | launch : OpCall
  | authenticate : OpCall
  | whitelist : String → OpCall
deriving DecidableEq

/-- One primitive step performed by a button onDidClick closure or an
onDidDismiss callback: record a metric, dismiss the current notification, or
invoke a remediation operation of the Ready object. -/
inductive ClickStep where
  | track : String → Option Json → ClickStep
  | dismiss : ClickStep
  | invoke : OpCall → ClickStep

/-- Notification severity: atom.notifications.addError versus addWarning. -/
inductive Severity where
  | error
  | warning
deriving DecidableEq

/-- A notification button: its label and the steps its onDidClick closure
performs. -/
structure Button where
  text : String
  onClick : List ClickStep

/-- A notification as handed to atom.notifications, together with the steps
registered by onDidDismiss. -/
structure Notification where
  severity : Severity
  title : String
  description : String
  icon : Option String
  dismissable : Bool
  buttons : List Button
  onDismiss : List ClickStep

/-- An observable event of a controller operation, in execution order:
a metrics.track call, a notification presentation, a StateController call
(the state query or one of the four remediation procedures), or a setTimeout
delay in milliseconds. -/
inductive Event where
  | track : String → Option Json → Event
  | notify : Notification → Event
  | queryState : Option String → Event
  | callInstall : Event
  | callRun : Event
  | callAuth : String → String → Event
  | callWhitelist : String → Event
  | delay : Nat → Event

/-- The external world as the controller sees it: the active editor file
path at the moment of a check, and the outcome of each StateController
operation. -/
structure Oracle where
  currentPath : Option String
  handleState : Option String → Except Json KState
  installKiteRelease : Except Json Unit
  runKite : Except Json Unit
  authenticateUser : String → String → Except Json Unit
  whitelistPath : String → Except Json Unit

/-- Scan of Node path.dirname (posix): indices are inspected from i down
to 1; while only slashes have been seen the scan skips trailing slashes;
the first slash after a non-slash character is the cut position. -/
def findEnd (cs : List Char) : Nat → Bool → Option Nat
  | 0, _ => none
  | i + 1, matchedSlash =>
      if cs.getD (i + 1) ' ' = '/' then
        if matchedSlash then findEnd cs i true else some (i + 1)
      else findEnd cs i false

/-- Model of Node path.dirname for posix paths, following the algorithm of
the Node standard library. -/
def dirname (p : String) : String :=
  match p.toList with
  | [] => "."
  | c0 :: rest =>
      let cs := c0 :: rest
      match findEnd cs (cs.length - 1) true with
      | none => if c0 = '/' then "/" else "."
      | some e =>
          if c0 = '/' ∧ e = 1 then "//" else String.mk (cs.take e)

/-- The attribute object literal with a single dir field, as passed to
metrics.track by the whitelisting code paths. -/
def dirAttr (d : String) : Json :=
  .obj [("dir", .str d)]

/-- Hardcoded email used by authenticate (a placeholder in the source). -/
def kiteEmail : String := "test@kite.com"

/-- Hardcoded password used by authenticate (a placeholder in the source). -/
def kitePassword : String := "123123"

/-- The notification built by warnNotSupported. -/
def notSupportedNotif : Notification :=
  { severity := .error
  , title := "The Kite autocomplete daemon is not supported on this platform"
  , description := "Kite is currently only supported on macOS."
  , icon := some "circle-slash"
  , dismissable := true
  , buttons := []
  , onDismiss := [.track "not-supported warning dismissed" none] }

/-- Events of warnNotSupported: track, then present the error. -/
def warnNotSupported : List Event :=
  [.track "not-supported warning shown" none, .notify notSupportedNotif]

/-- The notification built by warnNotInstalled. Its button dismisses the
notification and invokes install. -/
def notInstalledNotif : Notification :=
  { severity := .warning
  , title := "The Kite autocomplete daemon is not installed"
  , description := "In order to provide completions the Kite daemon needs to be installed."
  , icon := some "circle-slash"
  , dismissable := true
  , buttons :=
      [ { text := "Install Kite"
        , onClick :=
            [ .track "install button clicked (via not-installed warning)" none
            , .dismiss
            , .invoke .install ] } ]
  , onDismiss := [.track "not-installed warning dismissed" none] }

/-- Events of warnNotInstalled. -/
def warnNotInstalled : List Event :=
  [.track "not-installed warning shown" none, .notify notInstalledNotif]

/-- The notification built by warnNotRunning. Its button invokes launch and
does not dismiss the notification. -/
def notRunningNotif : Notification :=
  { severity := .warning
  , title := "The Kite autocomplete daemon is not running"
  , description := "In order to provide completions the Kite daemon needs to be running."
  , icon := some "circle-slash"
  , dismissable := true
  , buttons :=
      [ { text := "Start Kite"
        , onClick :=
            [ .track "start button clicked (via not-running warning)" none
            , .invoke .launch ] } ]
  , onDismiss := [.track "not-running warning dismissed" none] }

/-- Events of warnNotRunning. -/
def warnNotRunning : List Event :=
  [.track "not-running warning shown" none, .notify notRunningNotif]

/-- The notification built by warnNotReachable: an error without buttons. -/
def notReachableNotif : Notification :=
  { severity := .error
  , title := "The Kite autocomplete daemon is running but not reachable"
  , description := "Try killing Kite from Activity Monitor."
  , icon := none
  , dismissable := true
  , buttons := []
  , onDismiss := [.track "not-reachable warning dismissed" none] }

/-- Events of warnNotReachable. -/
def warnNotReachable : List Event :=
  [.track "not-reachable warning shown" none, .notify notReachableNotif]

/-- The notification built by warnNotAuthenticated. Its Login button invokes
authenticate and does not dismiss the notification. -/
def notAuthenticatedNotif : Notification :=
  { severity := .warning
  , title := "You need to log in to the Kite autocomplete daemon"
  , description := "In order to provide completions the Kite daemon needs to be authenticated (so that it can access the index of your code stored on the cloud)."
  , icon := some "circle-slash"
  , dismissable := true
  , buttons :=
      [ { text := "Login"
        , onClick :=
            [ .track "login button clicked (via not-authenticated warning)" none
            , .invoke .authenticate ] } ]
  , onDismiss := [.track "not-authenticated warning dismissed" none] }

/-- Events of warnNotAuthenticated. -/
def warnNotAuthenticated : List Event :=
  [.track "not-authenticated warning shown" none, .notify notAuthenticatedNotif]

/-- The notification built by warnNotWhitelisted for a file path. The title
names the file path itself; the button label and the whitelist invocation
both use the dirname of the file path. -/
def notWhitelistedNotif (filepath : String) : Notification :=
  { severity := .warning
  , title := "Kite completions are not enabled for " ++ filepath
  , description := "Kite only processes files in enabled directories. If you enable Kite then files in this directory will be synced to the Kite backend, where they will be analyzed and indexed."
  , icon := some "circle-slash"
  , dismissable := true
  , buttons :=
      [ { text := "Enable Kite for " ++ dirname filepath
        , onClick :=
            [ .track "enable button clicked (via not-whitelisted warning)"
                (some (dirAttr (dirname filepath)))
            , .invoke (.whitelist (dirname filepath)) ] } ]
  , onDismiss :=
      [.track "not-whitelisted warning dismissed" (some (dirAttr (dirname filepath)))] }

/-- Events of warnNotWhitelisted. -/
def warnNotWhitelisted (filepath : String) : List Event :=
  [ .track "not-whitelisted warning shown" (some (dirAttr (dirname filepath)))
  , .notify (notWhitelistedNotif filepath) ]

/-- The switch body of ensure: the events dispatched for one resolved
lifecycle state, given the current file path read at the start of ensure. -/
def dispatchTrace (curpath : Option String) : KState → List Event
  | .UNSUPPORTED => warnNotSupported
  | .UNINSTALLED => warnNotInstalled
  | .INSTALLED => warnNotRunning
  | .RUNNING => warnNotReachable
  | .REACHABLE => warnNotAuthenticated
  | .AUTHENTICATED =>
      match curpath with
      | some p => warnNotWhitelisted p
      | none => []
  | .WHITELISTED => [.track "kite is ready" none]

/-- Events of ensure: read the current path, query handleState, then either
dispatch on the resolved state or record the query failure. -/
def ensureTrace (o : Oracle) : List Event :=
  .queryState o.currentPath ::
    match o.handleState o.currentPath with
    | .ok s => dispatchTrace o.currentPath s
    | .error e => [.track "handleState failed" (some e)]

/-- The error notification built by install on failure. Its Retry button
dismisses the notification and invokes install again. -/
def installFailNotif (e : Json) : Notification :=
  { severity := .error
  , title := "Unable to install Kite"
  , description := Json.stringify e
  , icon := none
  , dismissable := true
  , buttons :=
      [ { text := "Retry"
        , onClick :=
            [ .track "retry button clicked (via download-and-install error)" none
            , .dismiss
            , .invoke .install ] } ]
  , onDismiss := [.track "download-and-install error dismissed" none] }

/-- The error notification built by launch on failure. Its Retry button
invokes launch again without dismissing the notification. -/
def launchFailNotif (e : Json) : Notification :=
  { severity := .error
  , title := "Unable to start Kite autocomplete daemon"
  , description := Json.stringify e
  , icon := none
  , dismissable := true
  , buttons :=
      [ { text := "Retry"
        , onClick :=
            [ .track "retry button clicked (via launch error)" none
            , .invoke .launch ] } ]
  , onDismiss := [.track "launch error dismissed" none] }

/-- The error notification built by authenticate on failure. -/
def authFailNotif (e : Json) : Notification :=
  { severity := .error
  , title := "Unable to login"
  , description := Json.stringify e
  , icon := none
  , dismissable := true
  , buttons :=
      [ { text := "Retry"
        , onClick :=
            [ .track "retry button clicked (via authentication error)" none
            , .invoke .authenticate ] } ]
  , onDismiss := [.track "authentication error dismissed" none] }

/-- The error notification built by whitelist on failure for a directory. -/
def whitelistFailNotif (e : Json) (dirpath : String) : Notification :=
  { severity := .error
  , title := "Unable to enable Kite for " ++ dirpath
  , description := Json.stringify e
  , icon := none
  , dismissable := true
  , buttons :=
      [ { text := "Retry"
        , onClick :=
            [ .track "retry clicked (via whitelisting-failed error)" (some (dirAttr dirpath))
            , .invoke (.whitelist dirpath) ] } ]
  , onDismiss := [.track "whitelisting error dismissed" none] }

/-- Events of launch: call runKite; on success wait the fixed 5000 ms
settling delay inside setTimeout, then track success and re-run ensure; on
failure track and present the retry notification. -/
def launchTrace (o : Oracle) : List Event :=
  .track "launch started" none :: .callRun ::
    match o.runKite with
    | .ok _ => .delay 5000 :: .track "launch succeeded" none :: ensureTrace o
    | .error e => [.track "launch failed" (some e), .notify (launchFailNotif e)]

/-- Events of install: call installKiteRelease; on success track and invoke
launch directly; on failure track and present the retry notification. -/
def installTrace (o : Oracle) : List Event :=
  .track "download-and-install started" none :: .callInstall ::
    match o.installKiteRelease with
    | .ok _ => .track "download-and-install succeeded" none :: launchTrace o
    | .error e =>
        [.track "download-and-install failed" (some e), .notify (installFailNotif e)]

/-- Events of authenticate: call authenticateUser with the hardcoded
credentials; on success track and re-run ensure; on failure track and
present the retry notification. -/
def authenticateTrace (o : Oracle) : List Event :=
  .track "authentication started" none :: .callAuth kiteEmail kitePassword ::
    match o.authenticateUser kiteEmail kitePassword with
    | .ok _ => .track "authentication succeeded" none :: ensureTrace o
    | .error e =>
        [.track "authentication failed" (some e), .notify (authFailNotif e)]

/-- Events of whitelist for a directory path: call whitelistPath; on success
track and re-run ensure; on failure track (with the dir attribute, not the
error) and present the retry notification. -/
def whitelistTrace (o : Oracle) (dirpath : String) : List Event :=
  .track "whitelisting started" (some (dirAttr dirpath)) :: .callWhitelist dirpath ::
    match o.whitelistPath dirpath with
    | .ok _ => .track "whitelisting succeeded" (some (dirAttr dirpath)) :: ensureTrace o
    | .error e =>
        [ .track "whitelisting failed" (some (dirAttr dirpath))
        , .notify (whitelistFailNotif e dirpath) ]

/-- The trace of one remediation operation named by an OpCall. -/
def opTrace (o : Oracle) : OpCall → List Event
  | .install => installTrace o
  | .launch => launchTrace o
  | .authenticate => authenticateTrace o
  | .whitelist d => whitelistTrace o d

/-- The notifications presented along a trace, in order. -/
def notifsOf : List Event → List Notification
  | [] => []
  | .notify n :: t => n :: notifsOf t
  | _ :: t => notifsOf t

/-- The names of the metrics recorded along a trace, in order. -/
def tracksOf : List Event → List String
  | [] => []
  | .track s _ :: t => s :: tracksOf t
  | _ :: t => tracksOf t

/-- The StateController interactions of a trace (the state query and the
four remediation procedures), in order. -/
def callsOf : List Event → List Event
  | [] => []
  | .queryState p :: t => .queryState p :: callsOf t
  | .callInstall :: t => .callInstall :: callsOf t
  | .callRun :: t => .callRun :: callsOf t
  | .callAuth a b :: t => .callAuth a b :: callsOf t
  | .callWhitelist d :: t => .callWhitelist d :: callsOf t
  | .track _ _ :: t => callsOf t
  | .notify _ :: t => callsOf t
  | .delay _ :: t => callsOf t

/-- The delays of a trace, in milliseconds, in order. -/
def delaysOf : List Event → List Nat
  | [] => []
  | .delay m :: t => m :: delaysOf t
  | _ :: t => delaysOf t

/-- The operations invoked by a list of click steps, in order. -/
def invokesOf : List ClickStep → List OpCall
  | [] => []
  | .invoke op :: t => op :: invokesOf t
  | _ :: t => invokesOf t

/-- The operation re-invoked by the Retry button of the first notification
of a trace: the first invoke step of the first button. -/
def retryOf (t : List Event) : Option OpCall :=
  match notifsOf t with
  | n :: _ =>
      match n.buttons with
      | b :: _ => (invokesOf b.onClick).head?
      | [] => none
  | [] => none

/-- Whether the oracle makes the named operation fail. -/
def opFails (o : Oracle) (op : OpCall) : Prop :=
  match op with
  | .install => ∃ e, o.installKiteRelease = .error e
  | .launch => ∃ e, o.runKite = .error e
  | .authenticate => ∃ e, o.authenticateUser kiteEmail kitePassword = .error e
  | .whitelist d => ∃ e, o.whitelistPath d = .error e

/-- n successive retries: starting from an operation, each step replaces the
operation by the one its failure notification Retry button would invoke. -/
def retryIter (o : Oracle) : Nat → Option OpCall → Option OpCall
  | 0, x => x
  | n + 1, x => retryIter o n (x.bind fun op => retryOf (opTrace o op))

/-- An oracle on which every operation succeeds and no file is focused. -/
def baseOracle : Oracle :=
  { currentPath := none
  , handleState := fun _ => .ok .WHITELISTED
  , installKiteRelease := .ok ()
  , runKite := .ok ()
  , authenticateUser := fun _ _ => .ok ()
  , whitelistPath := fun _ => .ok () }

/-- A concrete error payload, as in the spec scenario. -/
def errE1 : Json := .obj [("code", .str "E1")]

/-- Oracle reporting AUTHENTICATED with a focused file. -/
def oAuthPath : Oracle :=
  { baseOracle with
      currentPath := some "/a/b.py"
      handleState := fun _ => .ok .AUTHENTICATED }

/-- Oracle reporting AUTHENTICATED with no focused file. -/
def oAuthNone : Oracle :=
  { baseOracle with handleState := fun _ => .ok .AUTHENTICATED }

/-- Oracle whose state query rejects. -/
def oQueryFail : Oracle :=
  { baseOracle with handleState := fun _ => .error errE1 }

/-- Oracle whose install operation rejects. -/
def oInstallFail : Oracle :=
  { baseOracle with installKiteRelease := .error errE1 }

/-- Oracle whose install and launch operations both reject. -/
def oBothFail : Oracle :=
  { baseOracle with installKiteRelease := .error errE1, runKite := .error errE1 }

/-- Oracle whose whitelist operation rejects. -/
def oWhitelistFail : Oracle :=
  { baseOracle with whitelistPath := fun _ => .error errE1 }

theorem ensureTrace_ok (o : Oracle) (s : KState)
    (h : o.handleState o.currentPath = .ok s) :
    ensureTrace o = .queryState o.currentPath :: dispatchTrace o.currentPath s := by
  simp [ensureTrace, h]

theorem ensureTrace_error (o : Oracle) (e : Json)
    (h : o.handleState o.currentPath = .error e) :
    ensureTrace o = [.queryState o.currentPath, .track "handleState failed" (some e)] := by
  simp [ensureTrace, h]

theorem callsOf_cons_track (s : String) (a : Option Json) (t : List Event) :
    callsOf (.track s a :: t) = callsOf t := rfl

theorem callsOf_cons_delay (m : Nat) (t : List Event) :
    callsOf (.delay m :: t) = callsOf t := rfl

theorem callsOf_cons_callInstall (t : List Event) :
    callsOf (.callInstall :: t) = .callInstall :: callsOf t := rfl

theorem callsOf_cons_callRun (t : List Event) :
    callsOf (.callRun :: t) = .callRun :: callsOf t := rfl

theorem callsOf_cons_callAuth (a b : String) (t : List Event) :
    callsOf (.callAuth a b :: t) = .callAuth a b :: callsOf t := rfl

theorem callsOf_cons_callWhitelist (d : String) (t : List Event) :
    callsOf (.callWhitelist d :: t) = .callWhitelist d :: callsOf t := rfl

theorem delaysOf_cons_track (s : String) (a : Option Json) (t : List Event) :
    delaysOf (.track s a :: t) = delaysOf t := rfl

theorem delaysOf_cons_callAuth (a b : String) (t : List Event) :
    delaysOf (.callAuth a b :: t) = delaysOf t := rfl

theorem delaysOf_cons_callWhitelist (d : String) (t : List Event) :
    delaysOf (.callWhitelist d :: t) = delaysOf t := rfl

theorem callsOf_dispatchTrace (cp : Option String) (s : KState) :
    callsOf (dispatchTrace cp s) = [] := by
  cases s <;> first | rfl | (cases cp <;> rfl)

theorem callsOf_ensureTrace (o : Oracle) :
    callsOf (ensureTrace o) = [.queryState o.currentPath] := by
  unfold ensureTrace
  cases o.handleState o.currentPath with
  | ok s => simp [callsOf, callsOf_dispatchTrace]
  | error e => simp [callsOf]

theorem delaysOf_dispatchTrace (cp : Option String) (s : KState) :
    delaysOf (dispatchTrace cp s) = [] := by
  cases s <;> first | rfl | (cases cp <;> rfl)

theorem delaysOf_ensureTrace (o : Oracle) :
    delaysOf (ensureTrace o) = [] := by
  unfold ensureTrace
  cases o.handleState o.currentPath with
  | ok s => simp [delaysOf, delaysOf_dispatchTrace]
  | error e => simp [delaysOf]

/-- C1: for every LifecycleState returned by the state query, ensure
dispatches per the corrected mapping: UNSUPPORTED yields a non-actionable
error notification; UNINSTALLED a warning whose action invokes install;
INSTALLED a warning whose action invokes launch; RUNNING a non-actionable
error notification; REACHABLE a warning whose Login action invokes
authenticate; AUTHENTICATED the whitelist warning exactly when the current
file path is non-null, and zero notifications when it is null; WHITELISTED
no notification and one success telemetry record. -/
theorem ensure_state_dispatch (o : Oracle) (s : KState)
    (h : o.handleState o.currentPath = .ok s) :
    (s = .UNSUPPORTED → ∃ n, notifsOf (ensureTrace o) = [n] ∧
      n.severity = .error ∧ n.buttons = []) ∧
    (s = .UNINSTALLED → ∃ n, notifsOf (ensureTrace o) = [n] ∧
      n.severity = .warning ∧
      (n.buttons.map fun b => invokesOf b.onClick) = [[.install]]) ∧
    (s = .INSTALLED → ∃ n, notifsOf (ensureTrace o) = [n] ∧
      n.severity = .warning ∧
      (n.buttons.map fun b => invokesOf b.onClick) = [[.launch]]) ∧
    (s = .RUNNING → ∃ n, notifsOf (ensureTrace o) = [n] ∧
      n.severity = .error ∧ n.buttons = []) ∧
    (s = .REACHABLE → ∃ n, notifsOf (ensureTrace o) = [n] ∧
      n.severity = .warning ∧ n.buttons.map Button.text = ["Login"] ∧
      (n.buttons.map fun b => invokesOf b.onClick) = [[.authenticate]]) ∧
    (s = .AUTHENTICATED →
      (o.currentPath = none → notifsOf (ensureTrace o) = []) ∧
      ∀ p, o.currentPath = some p → ∃ n, notifsOf (ensureTrace o) = [n] ∧
        n.severity = .warning ∧
        (n.buttons.map fun b => invokesOf b.onClick) = [[.whitelist (dirname p)]]) ∧
    (s = .WHITELISTED → notifsOf (ensureTrace o) = [] ∧
      tracksOf (ensureTrace o) = ["kite is ready"]) := by
  refine ⟨fun hs => ?_, fun hs => ?_, fun hs => ?_, fun hs => ?_, fun hs => ?_,
    fun hs => ?_, fun hs => ?_⟩ <;> subst hs
  · exact ⟨notSupportedNotif, by rw [ensureTrace_ok o _ h]; rfl, rfl, rfl⟩
  · exact ⟨notInstalledNotif, by rw [ensureTrace_ok o _ h]; rfl, rfl, rfl⟩
  · exact ⟨notRunningNotif, by rw [ensureTrace_ok o _ h]; rfl, rfl, rfl⟩
  · exact ⟨notReachableNotif, by rw [ensureTrace_ok o _ h]; rfl, rfl, rfl⟩
  · exact ⟨notAuthenticatedNotif, by rw [ensureTrace_ok o _ h]; rfl, rfl, rfl, rfl⟩
  · constructor
    · intro hn
      rw [ensureTrace_ok o _ h, hn]
      rfl
    · intro p hp
      rw [ensureTrace_ok o _ h, hp]
      exact ⟨notWhitelistedNotif p, rfl, rfl, rfl⟩
  · rw [ensureTrace_ok o _ h]
    exact ⟨rfl, rfl⟩

/-- Witness for C1 at a concrete oracle: AUTHENTICATED with a focused file
presents exactly the whitelist warning for the dirname of that file. -/
theorem ensure_state_dispatch_witness :
    ∃ n, notifsOf (ensureTrace oAuthPath) = [n] ∧
      n.severity = .warning ∧
      (n.buttons.map fun b => invokesOf b.onClick) =
        [[.whitelist (dirname "/a/b.py")]] := by
  have h := ensure_state_dispatch oAuthPath .AUTHENTICATED rfl
  exact (h.2.2.2.2.2.1 rfl).2 "/a/b.py" rfl

/-- C7: when the state query inside ensure rejects, the controller records
the failure as one telemetry signal and presents no notification; the trace
is total, so nothing is re-raised to a caller. -/
theorem ensure_query_failure (o : Oracle) (e : Json)
    (h : o.handleState o.currentPath = .error e) :
    ensureTrace o = [.queryState o.currentPath, .track "handleState failed" (some e)] ∧
    notifsOf (ensureTrace o) = [] ∧
    tracksOf (ensureTrace o) = ["handleState failed"] := by
  have he := ensureTrace_error o e h
  exact ⟨he, by rw [he]; rfl, by rw [he]; rfl⟩

/-- Witness for C7 at a concrete rejecting oracle. -/
theorem ensure_query_failure_witness :
    ensureTrace oQueryFail = [.queryState none, .track "handleState failed" (some errE1)] ∧
    notifsOf (ensureTrace oQueryFail) = [] ∧
    tracksOf (ensureTrace oQueryFail) = ["handleState failed"] :=
  ensure_query_failure oQueryFail errE1 rfl

/-- C2 counterexample: on an oracle where every operation succeeds, install
succeeds and the very next StateController interaction is the launch call,
with no state query between them — the controller proceeds from a
successful install to the launch remediation without re-deriving the
state. -/
theorem install_chain_skips_recheck_cex :
    baseOracle.installKiteRelease = .ok () ∧
    callsOf (installTrace baseOracle) =
      [Event.callInstall, Event.callRun, Event.queryState none] :=
  ⟨rfl, rfl⟩

/-- C2 amended: a successful launch, authenticate or whitelist is followed
by a fresh state query before any further oracle operation; a successful
install instead invokes launch directly, so its call sequence continues
with the launch call rather than a state query. -/
theorem remediation_recheck (o : Oracle) :
    (o.runKite = .ok () →
      callsOf (launchTrace o) = [.callRun, .queryState o.currentPath]) ∧
    (o.authenticateUser kiteEmail kitePassword = .ok () →
      callsOf (authenticateTrace o) =
        [.callAuth kiteEmail kitePassword, .queryState o.currentPath]) ∧
    (∀ d, o.whitelistPath d = .ok () →
      callsOf (whitelistTrace o d) = [.callWhitelist d, .queryState o.currentPath]) ∧
    (o.installKiteRelease = .ok () →
      callsOf (installTrace o) = .callInstall :: callsOf (launchTrace o)) := by
  refine ⟨fun h => ?_, fun h => ?_, fun d h => ?_, fun h => ?_⟩
  · unfold launchTrace
    rw [h]
    simp only [callsOf_cons_track, callsOf_cons_delay, callsOf_cons_callRun,
      callsOf_ensureTrace]
  · unfold authenticateTrace
    rw [h]
    simp only [callsOf_cons_track, callsOf_cons_callAuth, callsOf_ensureTrace]
  · unfold whitelistTrace
    rw [h]
    simp only [callsOf_cons_track, callsOf_cons_callWhitelist, callsOf_ensureTrace]
  · unfold installTrace
    rw [h]
    simp only [callsOf_cons_track, callsOf_cons_callInstall]

/-- Witness for C2 amended at the all-success oracle. -/
theorem remediation_recheck_witness :
    callsOf (launchTrace baseOracle) = [Event.callRun, Event.queryState none] ∧
    callsOf (authenticateTrace baseOracle) =
      [Event.callAuth kiteEmail kitePassword, Event.queryState none] ∧
    callsOf (whitelistTrace baseOracle "/a") =
      [Event.callWhitelist "/a", Event.queryState none] ∧
    callsOf (installTrace baseOracle) =
      Event.callInstall :: callsOf (launchTrace baseOracle) :=
  ⟨(remediation_recheck baseOracle).1 rfl,
   (remediation_recheck baseOracle).2.1 rfl,
   (remediation_recheck baseOracle).2.2.1 "/a" rfl,
   (remediation_recheck baseOracle).2.2.2 rfl⟩

/-- C3 counterexample: when the query resolves to AUTHENTICATED and the
current file path is null, ensure presents zero notifications (a non-ready
resolved state with no notification) and records zero telemetry signals
(the claim requires exactly one per resolved call). -/
theorem ensure_auth_null_zero_effects_cex :
    oAuthNone.handleState oAuthNone.currentPath = .ok .AUTHENTICATED ∧
    oAuthNone.currentPath = none ∧
    (notifsOf (ensureTrace oAuthNone)).length = 0 ∧
    (tracksOf (ensureTrace oAuthNone)).length = 0 :=
  ⟨rfl, rfl, rfl, rfl⟩

/-- C3 amended: for a resolved state query, exactly one notification is
shown for every non-ready state except AUTHENTICATED with a null file path,
and exactly one telemetry signal is recorded for every resolved state
except AUTHENTICATED with a null file path, where both counts are zero;
WHITELISTED shows zero notifications. -/
theorem ensure_effect_counts (o : Oracle) (s : KState)
    (h : o.handleState o.currentPath = .ok s) :
    (s = .AUTHENTICATED ∧ o.currentPath = none →
      (notifsOf (ensureTrace o)).length = 0 ∧ (tracksOf (ensureTrace o)).length = 0) ∧
    (¬(s = .AUTHENTICATED ∧ o.currentPath = none) →
      (tracksOf (ensureTrace o)).length = 1) ∧
    (s ≠ .WHITELISTED ∧ ¬(s = .AUTHENTICATED ∧ o.currentPath = none) →
      (notifsOf (ensureTrace o)).length = 1) ∧
    (s = .WHITELISTED → (notifsOf (ensureTrace o)).length = 0) := by
  rw [ensureTrace_ok o s h]
  cases s <;> cases hc : o.currentPath <;>
    simp [dispatchTrace, warnNotSupported, warnNotInstalled, warnNotRunning,
      warnNotReachable, warnNotAuthenticated, warnNotWhitelisted,
      notifsOf, tracksOf]

/-- Witness for C3 amended: AUTHENTICATED with a focused file yields one
telemetry signal and one notification. -/
theorem ensure_effect_counts_witness :
    (tracksOf (ensureTrace oAuthPath)).length = 1 ∧
    (notifsOf (ensureTrace oAuthPath)).length = 1 := by
  have h := ensure_effect_counts oAuthPath .AUTHENTICATED rfl
  have hne : ¬(KState.AUTHENTICATED = KState.AUTHENTICATED ∧
      oAuthPath.currentPath = none) := by
    rintro ⟨-, hc⟩
    simp [oAuthPath, baseOracle] at hc
  exact ⟨h.2.1 hne, h.2.2.1 ⟨by simp, hne⟩⟩

/-- C4 counterexample: with both operations failing on the same payload,
the Retry button of the launch failure notification performs only a
telemetry record and a launch invocation — it does not dismiss the
notification — while the Retry button of the install failure notification
dismisses the notification before re-invoking install; the retry patterns
are not identical. -/
theorem launch_retry_no_dismiss_cex :
    ((notifsOf (launchTrace oBothFail)).map fun n => n.buttons.map Button.onClick) =
      [[[ClickStep.track "retry button clicked (via launch error)" none,
         ClickStep.invoke OpCall.launch]]] ∧
    ((notifsOf (installTrace oBothFail)).map fun n => n.buttons.map Button.onClick) =
      [[[ClickStep.track "retry button clicked (via download-and-install error)" none,
         ClickStep.dismiss,
         ClickStep.invoke OpCall.install]]] :=
  ⟨rfl, rfl⟩

/-- C4 amended: when launch fails, the error notification carries a Retry
button that re-invokes launch, but unlike the install retry pattern it does
not dismiss the current notification first; the install failure Retry
button dismisses and then re-invokes install. -/
theorem launch_retry_pattern (o : Oracle) (e e2 : Json)
    (hl : o.runKite = .error e) (hi : o.installKiteRelease = .error e2) :
    (∃ n, notifsOf (launchTrace o) = [n] ∧
      n.buttons.map (fun b => (b.text, b.onClick)) =
        [("Retry", [ClickStep.track "retry button clicked (via launch error)" none,
                    ClickStep.invoke OpCall.launch])]) ∧
    (∃ n, notifsOf (installTrace o) = [n] ∧
      n.buttons.map (fun b => (b.text, b.onClick)) =
        [("Retry", [ClickStep.track "retry button clicked (via download-and-install error)" none,
                    ClickStep.dismiss,
                    ClickStep.invoke OpCall.install])]) := by
  constructor
  · unfold launchTrace
    rw [hl]
    exact ⟨launchFailNotif e, rfl, rfl⟩
  · unfold installTrace
    rw [hi]
    exact ⟨installFailNotif e2, rfl, rfl⟩

/-- Witness for C4 amended at a concrete failing oracle. -/
theorem launch_retry_pattern_witness :
    oBothFail.runKite = .error errE1 ∧
    (∃ n, notifsOf (launchTrace oBothFail) = [n] ∧
      n.buttons.map (fun b => (b.text, b.onClick)) =
        [("Retry", [ClickStep.track "retry button clicked (via launch error)" none,
                    ClickStep.invoke OpCall.launch])]) :=
  ⟨rfl, (launch_retry_pattern oBothFail errE1 errE1 rfl rfl).1⟩

/-- C5: when install succeeds, the trace continues directly with the launch
trace — launch is invoked immediately, and the only events between the
install call and the launch events are telemetry records, so no state query
intervenes; the first oracle interaction of the launch trace is the run
call. -/
theorem install_success_direct_launch (o : Oracle)
    (h : o.installKiteRelease = .ok ()) :
    installTrace o =
      [.track "download-and-install started" none, .callInstall,
       .track "download-and-install succeeded" none] ++ launchTrace o ∧
    callsOf (installTrace o) = .callInstall :: callsOf (launchTrace o) ∧
    (callsOf (launchTrace o)).head? = some .callRun := by
  refine ⟨?_, ?_, ?_⟩
  · unfold installTrace
    rw [h]
    rfl
  · unfold installTrace
    rw [h]
    simp [callsOf]
  · unfold launchTrace
    cases o.runKite <;> simp [callsOf]

/-- Witness for C5 at the all-success oracle. -/
theorem install_success_direct_launch_witness :
    installTrace baseOracle =
      [.track "download-and-install started" none, .callInstall,
       .track "download-and-install succeeded" none] ++ launchTrace baseOracle ∧
    callsOf (installTrace baseOracle) =
      Event.callInstall :: callsOf (launchTrace baseOracle) ∧
    (callsOf (launchTrace baseOracle)).head? = some Event.callRun :=
  install_success_direct_launch baseOracle rfl

/-- C6: when launch succeeds, the fixed 5000 ms settling delay strictly
precedes the re-run of ensure (and hence its state query), while successful
authenticate and whitelist re-run ensure with no delay anywhere in their
traces; ensure itself never delays. -/
theorem chaining_delays (o : Oracle) :
    (o.runKite = .ok () →
      launchTrace o =
        [.track "launch started" none, .callRun, .delay 5000,
         .track "launch succeeded" none] ++ ensureTrace o) ∧
    (o.authenticateUser kiteEmail kitePassword = .ok () →
      authenticateTrace o =
        [.track "authentication started" none, .callAuth kiteEmail kitePassword,
         .track "authentication succeeded" none] ++ ensureTrace o ∧
      delaysOf (authenticateTrace o) = []) ∧
    (∀ d, o.whitelistPath d = .ok () →
      whitelistTrace o d =
        [.track "whitelisting started" (some (dirAttr d)), .callWhitelist d,
         .track "whitelisting succeeded" (some (dirAttr d))] ++ ensureTrace o ∧
      delaysOf (whitelistTrace o d) = []) ∧
    delaysOf (ensureTrace o) = [] := by
  refine ⟨fun h => ?_, fun h => ?_, fun d h => ?_, delaysOf_ensureTrace o⟩
  · unfold launchTrace
    rw [h]
    rfl
  · unfold authenticateTrace
    rw [h]
    exact ⟨rfl, by
      simp only [delaysOf_cons_track, delaysOf_cons_callAuth, delaysOf_ensureTrace]⟩
  · unfold whitelistTrace
    rw [h]
    exact ⟨rfl, by
      simp only [delaysOf_cons_track, delaysOf_cons_callWhitelist, delaysOf_ensureTrace]⟩

/-- Witness for C6 at the all-success oracle. -/
theorem chaining_delays_witness :
    launchTrace baseOracle =
      [.track "launch started" none, .callRun, .delay 5000,
       .track "launch succeeded" none] ++ ensureTrace baseOracle ∧
    delaysOf (authenticateTrace baseOracle) = [] ∧
    delaysOf (whitelistTrace baseOracle "/a") = [] :=
  ⟨(chaining_delays baseOracle).1 rfl,
   ((chaining_delays baseOracle).2.1 rfl).2,
   ((chaining_delays baseOracle).2.2.1 "/a" rfl).2⟩

/-- C8: the Retry button of every remediation failure notification
re-invokes exactly the operation that failed, with the same parameters:
whitelist retries the same directory path, and authenticate always calls
the oracle with the same hardcoded credentials; iterating the retry step
any number of times still yields the same operation. -/
theorem retry_reinvokes_same_operation (o : Oracle) (op : OpCall)
    (h : opFails o op) :
    retryOf (opTrace o op) = some op ∧
    (∀ n, retryIter o n (some op) = some op) ∧
    ∃ t, authenticateTrace o =
      .track "authentication started" none ::
        .callAuth kiteEmail kitePassword :: t := by
  have hr : retryOf (opTrace o op) = some op := by
    cases op with
    | install =>
        obtain ⟨e, he⟩ := (h : ∃ e, o.installKiteRelease = .error e)
        unfold opTrace installTrace
        rw [he]
        rfl
    | launch =>
        obtain ⟨e, he⟩ := (h : ∃ e, o.runKite = .error e)
        unfold opTrace launchTrace
        rw [he]
        rfl
    | authenticate =>
        obtain ⟨e, he⟩ :=
          (h : ∃ e, o.authenticateUser kiteEmail kitePassword = .error e)
        unfold opTrace authenticateTrace
        rw [he]
        rfl
    | whitelist d =>
        obtain ⟨e, he⟩ := (h : ∃ e, o.whitelistPath d = .error e)
        show retryOf (whitelistTrace o d) = some (OpCall.whitelist d)
        unfold whitelistTrace
        rw [he]
        rfl
  refine ⟨hr, fun n => ?_, ⟨_, rfl⟩⟩
  induction n with
  | zero => rfl
  | succ k ih => simpa [retryIter, Option.bind, hr] using ih

/-- Witness for C8: a failing whitelist retries the same directory, five
successive retries included. -/
theorem retry_reinvokes_same_operation_witness :
    retryOf (opTrace oWhitelistFail (OpCall.whitelist "/w")) =
      some (OpCall.whitelist "/w") ∧
    retryIter oWhitelistFail 5 (some (OpCall.whitelist "/w")) =
      some (OpCall.whitelist "/w") := by
  have h := retry_reinvokes_same_operation oWhitelistFail (OpCall.whitelist "/w")
    ⟨errE1, rfl⟩
  exact ⟨h.1, h.2.1 5⟩

/-- C9: for every rejection payload of the install operation, install
presents exactly one notification: an error whose description is the JSON
serialization of the payload, carrying a Retry button. -/
theorem install_failure_notification (o : Oracle) (e : Json)
    (h : o.installKiteRelease = .error e) :
    ∃ n, notifsOf (installTrace o) = [n] ∧ n.severity = .error ∧
      n.description = Json.stringify e ∧ n.buttons.map Button.text = ["Retry"] := by
  unfold installTrace
  rw [h]
  exact ⟨installFailNotif e, rfl, rfl, rfl, rfl⟩

/-- Witness for C9 at the concrete payload of the spec scenario. -/
theorem install_failure_notification_witness :
    oInstallFail.installKiteRelease = .error errE1 ∧
    ∃ n, notifsOf (installTrace oInstallFail) = [n] ∧ n.severity = .error ∧
      n.description = Json.stringify errE1 ∧
      n.buttons.map Button.text = ["Retry"] :=
  ⟨rfl, install_failure_notification oInstallFail errE1 rfl⟩

/-- C10: for every file path p, the whitelist prompt acts on the dirname of
p, not on p itself: its enable button is labeled with the dirname, clicking
it invokes the whitelist operation on the dirname, and the trace of that
operation calls the enable-directory procedure of the oracle with the
dirname as its first oracle interaction; only the prompt title mentions p
itself. -/
theorem whitelist_acts_on_dirname (p : String) (o : Oracle) :
    (notWhitelistedNotif p).buttons.map Button.text =
      ["Enable Kite for " ++ dirname p] ∧
    ((notWhitelistedNotif p).buttons.map fun b => invokesOf b.onClick) =
      [[.whitelist (dirname p)]] ∧
    (callsOf (opTrace o (.whitelist (dirname p)))).head? =
      some (.callWhitelist (dirname p)) ∧
    (notWhitelistedNotif p).title = "Kite completions are not enabled for " ++ p := by
  refine ⟨rfl, rfl, ?_, rfl⟩
  unfold opTrace whitelistTrace
  cases o.whitelistPath (dirname p) <;> simp [callsOf]

end KiteReady
